import Mathlib

/-!
Verification development for `src/perception/align_to_aruco.py`.

The Python program aligns a mobile robot base to an ArUco marker:
`AlignToAruco.compute_difference` converts the marker transform (expressed in
the robot base frame) and a standoff offset into a `(phi, dist, theta)`
correction triple; `AlignToAruco.align_to_marker` submits the three motion
goals in sequence; `main` runs a polling acquisition loop with a 120 s
timeout before constructing the controller.

Floating-point arithmetic is modelled over the reals.  The library helpers
the source calls (`math.atan2`, `math.sqrt`, `tf_transformations.quaternion_matrix`,
`tf_transformations.euler_from_quaternion`, `numpy.matmul`) are embedded below
with their documented real-number semantics.
-/

/-- A 3-vector, mirroring `geometry_msgs/Vector3` (`translation.x/.y/.z`). -/
structure Vec3 where
  x : ℝ
  y : ℝ
  z : ℝ

/-- A quaternion in ROS `[x, y, z, w]` component order, mirroring
`geometry_msgs/Quaternion` (`rotation.x/.y/.z/.w`). -/
structure Quat where
  x : ℝ
  y : ℝ
  z : ℝ
  w : ℝ

/-- A rigid transform, mirroring the `transform` field of
`geometry_msgs/TransformStamped`: a translation and a rotation quaternion. -/
structure Transform where
  translation : Vec3
  rotation : Quat

/-- Real-number model of C/Python `math.atan2 y x`: the four-quadrant
arctangent, with range `(-pi, pi]` and the convention `atan2 0 0 = 0`. -/
noncomputable def atan2 (y x : ℝ) : ℝ :=
  if 0 < x then Real.arctan (y / x)
  else if x = 0 then
    (if 0 < y then Real.pi / 2 else if y < 0 then -(Real.pi / 2) else 0)
  else
    (if 0 ≤ y then Real.arctan (y / x) + Real.pi else Real.arctan (y / x) - Real.pi)

/-- Embedding of `tf_transformations.quaternion_matrix` for a quaternion in
`[x, y, z, w]` order: the 4x4 homogeneous rotation matrix.  The library
normalises by `s = 2 / (x^2+y^2+z^2+w^2)` and returns the identity when the
squared norm is (numerically) zero; the float epsilon guard is modelled as an
exact zero test over the reals. -/
noncomputable def quaternion_matrix (q : Quat) : Matrix (Fin 4) (Fin 4) ℝ :=
  let n := q.x ^ 2 + q.y ^ 2 + q.z ^ 2 + q.w ^ 2
  if n = 0 then 1
  else
    let s := 2 / n
    Matrix.of
      ![![1 - s * (q.y ^ 2 + q.z ^ 2), s * (q.x * q.y - q.z * q.w), s * (q.x * q.z + q.y * q.w), 0],
        ![s * (q.x * q.y + q.z * q.w), 1 - s * (q.x ^ 2 + q.z ^ 2), s * (q.y * q.z - q.x * q.w), 0],
        ![s * (q.x * q.z - q.y * q.w), s * (q.y * q.z + q.x * q.w), 1 - s * (q.x ^ 2 + q.y ^ 2), 0],
        ![0, 0, 0, 1]]

/-- Embedding of `tf_transformations.euler_from_quaternion` with the default
static `sxyz` axes: builds the rotation matrix and extracts `(roll, pitch, yaw)`
by the Gohlke `euler_from_matrix` algorithm.  The float epsilon guard on
`sy` is modelled as an exact zero test. -/
noncomputable def euler_from_quaternion (q : Quat) : ℝ × ℝ × ℝ :=
  let M := quaternion_matrix q
  let sy := Real.sqrt (M 0 0 ^ 2 + M 1 0 ^ 2)
  if 0 < sy then
    (atan2 (M 2 1) (M 2 2), atan2 (-(M 2 0)) sy, atan2 (M 1 0) (M 0 0))
  else
    (atan2 (-(M 1 2)) (M 1 1), atan2 (-(M 2 0)) sy, 0)

/-- Embedding of `AlignToAruco.compute_difference` (source lines 39-79):
rotate the local offset point `(0, -offset, 0, 1)` by the marker rotation,
add the flattened marker translation `(tx, ty, 0, 1)`, force the homogeneous
coordinate to 1, and return `(phi, dist, -phi + z_rot_base + pi)`. -/
noncomputable def compute_difference (trans_base : Transform) (offset : ℝ) : ℝ × ℝ × ℝ :=
  let x := trans_base.rotation.x
  let y := trans_base.rotation.y
  let z := trans_base.rotation.z
  let w := trans_base.rotation.w
  let R := quaternion_matrix ⟨x, y, z, w⟩
  let P_dash : Fin 4 → ℝ := ![0, -offset, 0, 1]
  let P : Fin 4 → ℝ := ![trans_base.translation.x, trans_base.translation.y, 0, 1]
  let X := R.mulVec P_dash
  let P_base := Function.update (X + P) 3 1
  let base_position_x := P_base 0
  let base_position_y := P_base 1
  let phi := atan2 base_position_y base_position_x
  let dist := Real.sqrt (base_position_x ^ 2 + base_position_y ^ 2)
  let z_rot_base := (euler_from_quaternion ⟨x, y, z, w⟩).2.2
  (phi, dist, -phi + z_rot_base + Real.pi)

/-- Response of the trajectory action server to one submitted goal: either the
goal is not accepted (`goal_handle.accepted` false), or it is accepted and
later reaches the terminal status code carried by `accepted`. -/
inductive GoalResponse
  | rejected
  | accepted (status : ℕ)

/-- The `action_msgs/GoalStatus.STATUS_SUCCEEDED` constant. -/
def STATUS_SUCCEEDED : ℕ := 4

/-- The `action_msgs/GoalStatus.STATUS_ABORTED` constant. -/
def STATUS_ABORTED : ℕ := 6

/-- Observable effects of `align_to_marker`: goals submitted to the action
server (joint name and target value, in submission order) and the three log
streams. -/
structure SeqState where
  submitted : List (String × ℝ)
  errorLog : List String
  warnLog : List String
  infoLog : List String

/-- Embedding of the nested `send_base_goal_blocking` helper (source lines
84-111).  The actuator `act` maps the submission index (0, 1, 2 in program
order) to its response.  The goal is always submitted; if it is rejected an
error is logged and the helper returns without awaiting a result; if it is
accepted, a non-`STATUS_SUCCEEDED` terminal status logs a warning and a
succeeded status logs an info message. -/
def send_base_goal_blocking (act : ℕ → GoalResponse) (s : SeqState)
    (joint_name : String) (inc : ℝ) : SeqState :=
  let idx := s.submitted.length
  let s1 : SeqState :=
    { s with
      infoLog := s.infoLog ++ ["[" ++ joint_name ++ "] Sending goal"]
      submitted := s.submitted ++ [(joint_name, inc)] }
  match act idx with
  | .rejected =>
      { s1 with errorLog := s1.errorLog ++ ["Goal for " ++ joint_name ++ " was rejected!"] }
  | .accepted status =>
      if status ≠ STATUS_SUCCEEDED then
        { s1 with warnLog := s1.warnLog ++ ["Goal for " ++ joint_name ++ " did not succeed"] }
      else
        { s1 with infoLog := s1.infoLog ++ ["Goal for " ++ joint_name ++ " succeeded."] }

/-- Embedding of `AlignToAruco.align_to_marker` (source lines 81-115): compute
the correction triple and submit the three goals in order, each one blocking
until the previous helper call returned. -/
noncomputable def align_to_marker (act : ℕ → GoalResponse) (trans_base : Transform)
    (offset : ℝ) : SeqState :=
  let c := compute_difference trans_base offset
  let s0 : SeqState := ⟨[], [], [], []⟩
  let s1 := send_base_goal_blocking act s0 "rotate_mobile_base" c.1
  let s2 := send_base_goal_blocking act s1 "translate_mobile_base" c.2.1
  send_base_goal_blocking act s2 "rotate_mobile_base" c.2.2

/-- Outcome of one transform lookup attempt in `main`'s loop: the frame is not
yet resolvable (`can_transform` returns false), the lookup raises a
`TransformException`, or a transform is found. -/
inductive LookupResult
  | notAvail
  | exn
  | found (t : Transform)

/-- Result of the acquisition loop: either the first successful transform
together with the accumulated `missing` log and the iteration index at which
it was found, or a timeout with the accumulated log and the final iteration
index. -/
inductive AcqResult
  | success (trans_base : Transform) (missing : List String) (iters : ℕ)
  | timedOut (missing : List String) (iters : ℕ)

/-- The `missing` log of an `AcqResult`. -/
def AcqResult.missingLog : AcqResult → List String
  | .success _ m _ => m
  | .timedOut m _ => m

/-- The final iteration index of an `AcqResult`.  Iteration `k` runs after `k`
one-second sleeps, so the index models elapsed wall-clock seconds. -/
def AcqResult.itersRun : AcqResult → ℕ
  | .success _ _ k => k
  | .timedOut _ k => k

/-- Embedding of `main`'s acquisition loop (source lines 138-170).  The oracle
maps the iteration index to that attempt's outcome.  Each iteration attempts a
lookup: on success the loop breaks at once; otherwise one entry is appended to
`missing` (distinguishing a not-yet-available frame from an exception), the
elapsed time is compared against the timeout, and the loop sleeps one second
and retries.  Iteration `k` is preceded by `k` one-second sleeps, so the
`elapsed > timeout_sec` float check is modelled as `timeout_sec < k` on whole
seconds. -/
def acquire_loop (oracle : ℕ → LookupResult) (marker : String) (timeout_sec : ℕ)
    (k : ℕ) (missing : List String) : AcqResult :=
  match oracle k with
  | .found t => .success t missing k
  | .notAvail =>
      let m := missing ++ ["base_link → " ++ marker]
      if timeout_sec < k then .timedOut m k
      else acquire_loop oracle marker timeout_sec (k + 1) m
  | .exn =>
      let m := missing ++ ["exception"]
      if timeout_sec < k then .timedOut m k
      else acquire_loop oracle marker timeout_sec (k + 1) m
termination_by timeout_sec + 1 - k
decreasing_by all_goals omega

/-- The acquisition phase of `main`: loop from iteration 0 with an empty
attempt log and the 120-second timeout of source line 125. -/
def main_acquire (oracle : ℕ → LookupResult) (marker : String) : AcqResult :=
  acquire_loop oracle marker 120 0 []

/-- Observable outcome of `main` (source lines 118-186): on acquisition
timeout, an error carrying the accumulated attempt log is logged and the
process shuts down without constructing `AlignToAruco`; otherwise the
controller is constructed with the acquired transform and `align_to_marker`
runs. -/
inductive MainOutcome
  | timeoutExit (missing : List String)
  | aligned (trans_base : Transform) (seq : SeqState)

/-- Embedding of `main` after the loop (source lines 172-186): `trans_base`
is `None` exactly when the loop timed out. -/
noncomputable def main_model (oracle : ℕ → LookupResult) (marker : String)
    (act : ℕ → GoalResponse) (offset : ℝ) : MainOutcome :=
  match main_acquire oracle marker with
  | .timedOut missing _ => .timeoutExit missing
  | .success t _ _ => .aligned t (align_to_marker act t offset)

/-- The motion goals submitted over a whole run of `main`: none at all on the
timeout path. -/
def MainOutcome.motionSubmitted : MainOutcome → List (String × ℝ)
  | .timeoutExit _ => []
  | .aligned _ s => s.submitted

/-- Modelled from the spec: the standard homogeneous rotation matrix of a
unit quaternion (the spec's "R the rotation matrix of q"), for comparison
with `quaternion_matrix`, which differs only in the normalisation factor. -/
noncomputable def rotation_matrix_spec (q : Quat) : Matrix (Fin 4) (Fin 4) ℝ :=
  Matrix.of
    ![![1 - 2 * (q.y ^ 2 + q.z ^ 2), 2 * (q.x * q.y - q.z * q.w), 2 * (q.x * q.z + q.y * q.w), 0],
      ![2 * (q.x * q.y + q.z * q.w), 1 - 2 * (q.x ^ 2 + q.z ^ 2), 2 * (q.y * q.z - q.x * q.w), 0],
      ![2 * (q.x * q.z - q.y * q.w), 2 * (q.y * q.z + q.x * q.w), 1 - 2 * (q.x ^ 2 + q.y ^ 2), 0],
      ![0, 0, 0, 1]]

/-- Modelled from the spec: the target point `P_base = R · (0, -offset, 0, 1)
+ (tx, ty, 0, 1)` with its homogeneous coordinate forced back to 1, stated
with the spec's unit-quaternion rotation matrix. -/
noncomputable def P_base_spec (t : Transform) (offset : ℝ) : Fin 4 → ℝ :=
  Function.update
    ((rotation_matrix_spec t.rotation).mulVec ![0, -offset, 0, 1] +
      ![t.translation.x, t.translation.y, 0, 1]) 3 1

/-- The four-quadrant arctangent always lands in the half-open interval
`(-pi, pi]`, in every branch of its definition. -/
lemma atan2_mem_Ioc (y x : ℝ) : atan2 y x ∈ Set.Ioc (-Real.pi) Real.pi := by
  have hpi := Real.pi_pos
  unfold atan2
  split_ifs with h1 h2 h3 h4 h5
  · have ha := Real.arctan_lt_pi_div_two (y / x)
    have hb := Real.neg_pi_div_two_lt_arctan (y / x)
    constructor <;> linarith
  · constructor <;> linarith
  · constructor <;> linarith
  · constructor <;> linarith
  · have hx : x < 0 := lt_of_le_of_ne (not_lt.mp h1) h2
    have hq : y / x ≤ 0 := div_nonpos_of_nonneg_of_nonpos h5 hx.le
    have ha : Real.arctan (y / x) ≤ 0 := by
      have := Real.arctan_strictMono.monotone hq
      rwa [Real.arctan_zero] at this
    have hb := Real.neg_pi_div_two_lt_arctan (y / x)
    constructor <;> linarith
  · have hx : x < 0 := lt_of_le_of_ne (not_lt.mp h1) h2
    have hy : y < 0 := not_le.mp h5
    have hq : 0 < y / x := div_pos_of_neg_of_neg hy hx
    have ha : 0 < Real.arctan (y / x) := by
      have := Real.arctan_strictMono hq
      rwa [Real.arctan_zero] at this
    have hb := Real.arctan_lt_pi_div_two (y / x)
    constructor <;> linarith

/-- The convention `atan2 0 0 = 0` used by `math.atan2`. -/
lemma atan2_zero_zero : atan2 0 0 = 0 := by
  norm_num [atan2]

/-- The rotation matrix of the identity quaternion `(0, 0, 0, 1)` is the
identity matrix. -/
lemma quaternion_matrix_id : quaternion_matrix ⟨0, 0, 0, 1⟩ = 1 := by
  simp only [quaternion_matrix]
  norm_num
  ext i j
  fin_cases i <;> fin_cases j <;>
    simp [Matrix.one_apply, Matrix.vecHead, Matrix.vecTail]

/-- Roll, pitch and yaw of the identity quaternion are all zero. -/
lemma euler_from_quaternion_id : euler_from_quaternion ⟨0, 0, 0, 1⟩ = (0, 0, 0) := by
  simp only [euler_from_quaternion, quaternion_matrix_id]
  norm_num [Matrix.one_apply, atan2]
  decide

/-- For a unit quaternion the library's normalisation factor is exactly 2, so
`quaternion_matrix` coincides with the spec's unit-quaternion rotation
matrix. -/
lemma quaternion_matrix_of_unit (q : Quat)
    (h : q.x ^ 2 + q.y ^ 2 + q.z ^ 2 + q.w ^ 2 = 1) :
    quaternion_matrix q = rotation_matrix_spec q := by
  rw [quaternion_matrix, rotation_matrix_spec]
  rw [h]
  norm_num

/-- Entries 0 and 1 of the target point for an identity-rotation marker at
planar position `(tx, ty)`: the local offset vector is left unchanged by the
identity rotation, so they are `tx` and `-offset + ty`. -/
lemma P_base_id_entries (offset tx ty : ℝ) :
    (Function.update ((quaternion_matrix ⟨0, 0, 0, 1⟩).mulVec ![0, -offset, 0, 1] +
        ![tx, ty, 0, 1]) 3 1) 0 = tx ∧
    (Function.update ((quaternion_matrix ⟨0, 0, 0, 1⟩).mulVec ![0, -offset, 0, 1] +
        ![tx, ty, 0, 1]) 3 1) 1 = -offset + ty := by
  rw [quaternion_matrix_id, Matrix.one_mulVec]
  constructor
  · rw [Function.update_noteq (by decide)]
    norm_num
  · rw [Function.update_noteq (by decide)]
    norm_num


/-- One call of the goal helper always appends exactly its one goal to the
submitted list, whatever the actuator's response. -/
lemma sbg_submitted (act : ℕ → GoalResponse) (s : SeqState) (j : String) (inc : ℝ) :
    (send_base_goal_blocking act s j inc).submitted = s.submitted ++ [(j, inc)] := by
  simp only [send_base_goal_blocking]
  rcases act s.submitted.length with _ | st
  · rfl
  · dsimp only
    split_ifs <;> rfl

/-- The three goals of `align_to_marker` are always submitted, in program
order, carrying the correction triple as target values. -/
lemma align_submitted (act : ℕ → GoalResponse) (t : Transform) (offset : ℝ) :
    (align_to_marker act t offset).submitted =
      [("rotate_mobile_base", (compute_difference t offset).1),
       ("translate_mobile_base", (compute_difference t offset).2.1),
       ("rotate_mobile_base", (compute_difference t offset).2.2)] := by
  simp only [align_to_marker, sbg_submitted]
  rfl

/-- A rejected goal adds exactly the rejection message to the error log. -/
lemma sbg_errorLog_rejected (act : ℕ → GoalResponse) (s : SeqState) (j : String) (inc : ℝ)
    (h : act s.submitted.length = .rejected) :
    (send_base_goal_blocking act s j inc).errorLog =
      s.errorLog ++ ["Goal for " ++ j ++ " was rejected!"] := by
  simp only [send_base_goal_blocking, h]

/-- The goal helper only ever appends to the error log. -/
lemma sbg_errorLog_extend (act : ℕ → GoalResponse) (s : SeqState) (j : String) (inc : ℝ) :
    ∃ l, (send_base_goal_blocking act s j inc).errorLog = s.errorLog ++ l := by
  simp only [send_base_goal_blocking]
  rcases act s.submitted.length with _ | st
  · exact ⟨_, rfl⟩
  · dsimp only
    split_ifs
    · exact ⟨[], by simp⟩
    · exact ⟨[], by simp⟩

/-- An accepted goal whose terminal status is not `STATUS_SUCCEEDED` adds
exactly the did-not-succeed warning to the warning log. -/
lemma sbg_warnLog_notSucceeded (act : ℕ → GoalResponse) (s : SeqState) (j : String) (inc : ℝ)
    (st : ℕ) (h : act s.submitted.length = .accepted st) (hst : st ≠ STATUS_SUCCEEDED) :
    (send_base_goal_blocking act s j inc).warnLog =
      s.warnLog ++ ["Goal for " ++ j ++ " did not succeed"] := by
  simp only [send_base_goal_blocking, h]
  rw [if_pos hst]

/-- The goal helper only ever appends to the warning log. -/
lemma sbg_warnLog_extend (act : ℕ → GoalResponse) (s : SeqState) (j : String) (inc : ℝ) :
    ∃ l, (send_base_goal_blocking act s j inc).warnLog = s.warnLog ++ l := by
  simp only [send_base_goal_blocking]
  rcases act s.submitted.length with _ | st
  · exact ⟨[], by simp⟩
  · dsimp only
    split_ifs
    · exact ⟨_, rfl⟩
    · exact ⟨[], by simp⟩

/-- The acquisition loop, entered at iteration `k ≤ T + 1`, always exits at an
iteration index at most `T + 1`: the timeout is re-checked on every failed
iteration. -/
lemma acquire_loop_iters_le (oracle : ℕ → LookupResult) (marker : String) (T : ℕ) :
    ∀ f k missing, T + 1 - k ≤ f → k ≤ T + 1 →
      (acquire_loop oracle marker T k missing).itersRun ≤ T + 1 := by
  intro f
  induction f with
  | zero =>
    intro k missing hf hk
    rw [acquire_loop]
    rcases oracle k with _ | _ | t <;> dsimp only
    · rw [if_pos (show T < k by omega)]
      simpa [AcqResult.itersRun] using hk
    · rw [if_pos (show T < k by omega)]
      simpa [AcqResult.itersRun] using hk
    · simpa [AcqResult.itersRun] using hk
  | succ f ih =>
    intro k missing hf hk
    rw [acquire_loop]
    rcases oracle k with _ | _ | t <;> dsimp only
    · by_cases hT : T < k
      · rw [if_pos hT]
        simpa [AcqResult.itersRun] using hk
      · rw [if_neg hT]
        exact ih (k + 1) _ (by omega) (by omega)
    · by_cases hT : T < k
      · rw [if_pos hT]
        simpa [AcqResult.itersRun] using hk
      · rw [if_neg hT]
        exact ih (k + 1) _ (by omega) (by omega)
    · simpa [AcqResult.itersRun] using hk

/-- If the oracle fails (not-available or exception) for `M` iterations
starting at `k`, none of which reaches the timeout, and then succeeds, the
loop returns that transform at iteration `k + M`, having appended exactly one
log entry per failed attempt. -/
lemma acquire_loop_success_after (oracle : ℕ → LookupResult) (marker : String) (T : ℕ)
    (t : Transform) :
    ∀ M k missing,
      (∀ j, j < M → ∀ u, oracle (k + j) ≠ .found u) →
      (∀ j, j < M → k + j ≤ T) →
      oracle (k + M) = .found t →
      ∃ log, acquire_loop oracle marker T k missing = .success t (missing ++ log) (k + M) ∧
        log.length = M := by
  intro M
  induction M with
  | zero =>
    intro k missing _ _ hsucc
    refine ⟨[], ?_, rfl⟩
    rw [acquire_loop]
    rw [show oracle k = .found t by simpa using hsucc]
    simp
  | succ M ih =>
    intro k missing hfail hT hsucc
    have h0 := hfail 0 (by omega)
    rw [acquire_loop]
    rcases ho : oracle k with _ | _ | u <;> dsimp only
    · rw [if_neg (show ¬ T < k by have := hT 0 (by omega); omega)]
      obtain ⟨log, hl, hlen⟩ := ih (k + 1) (missing ++ ["base_link → " ++ marker])
        (fun j hj u => by
          have := hfail (j + 1) (by omega) u
          rwa [show k + (j + 1) = k + 1 + j by omega] at this)
        (fun j hj => by
          have := hT (j + 1) (by omega)
          omega)
        (by rwa [show k + 1 + M = k + (M + 1) by omega])
      refine ⟨("base_link → " ++ marker) :: log, ?_, by simpa using hlen⟩
      rw [hl, show k + 1 + M = k + (M + 1) by omega]
      simp
    · rw [if_neg (show ¬ T < k by have := hT 0 (by omega); omega)]
      obtain ⟨log, hl, hlen⟩ := ih (k + 1) (missing ++ ["exception"])
        (fun j hj u => by
          have := hfail (j + 1) (by omega) u
          rwa [show k + (j + 1) = k + 1 + j by omega] at this)
        (fun j hj => by
          have := hT (j + 1) (by omega)
          omega)
        (by rwa [show k + 1 + M = k + (M + 1) by omega])
      refine ⟨"exception" :: log, ?_, by simpa using hlen⟩
      rw [hl, show k + 1 + M = k + (M + 1) by omega]
      simp
    · exact absurd ho (by simpa using h0 u)

/-- Against an oracle whose lookups always report the frame unavailable, the
loop entered at iteration `k = T + 1 - f` times out at iteration `T + 1` with
one log entry per attempt. -/
lemma acquire_loop_const_notAvail (marker : String) (T : ℕ) :
    ∀ f k missing, k + f = T + 1 →
      acquire_loop (fun _ => LookupResult.notAvail) marker T k missing =
        .timedOut (missing ++ List.replicate (f + 1) ("base_link → " ++ marker)) (T + 1) := by
  intro f
  induction f with
  | zero =>
    intro k missing hk
    rw [acquire_loop]
    dsimp only
    rw [if_pos (show T < k by omega)]
    simp [show k = T + 1 by omega]
  | succ f ih =>
    intro k missing hk
    rw [acquire_loop]
    dsimp only
    rw [if_neg (show ¬ T < k by omega)]
    rw [ih (k + 1) _ (by omega)]
    simp [List.replicate_succ]

/-- C1: for every transform with a unit rotation quaternion and every offset,
`compute_difference` returns `phi = atan2 (P_base.y) (P_base.x)` and
`dist = sqrt (P_base.x^2 + P_base.y^2)` where `P_base` is the spec's target
point built from the unit-quaternion rotation matrix, and the result depends
on the translation only through `tx` and `ty` (`tz` is flattened to 0). -/
theorem compute_difference_phi_dist_spec (t : Transform) (offset : ℝ)
    (h : t.rotation.x ^ 2 + t.rotation.y ^ 2 + t.rotation.z ^ 2 + t.rotation.w ^ 2 = 1) :
    (compute_difference t offset).1 = atan2 (P_base_spec t offset 1) (P_base_spec t offset 0) ∧
    (compute_difference t offset).2.1 =
      Real.sqrt (P_base_spec t offset 0 ^ 2 + P_base_spec t offset 1 ^ 2) ∧
    ∀ tz : ℝ,
      compute_difference ⟨⟨t.translation.x, t.translation.y, tz⟩, t.rotation⟩ offset =
        compute_difference t offset := by
  have hq : quaternion_matrix ⟨t.rotation.x, t.rotation.y, t.rotation.z, t.rotation.w⟩ =
      rotation_matrix_spec t.rotation := quaternion_matrix_of_unit t.rotation h
  refine ⟨?_, ?_, fun tz => rfl⟩
  · show atan2
      (Function.update ((quaternion_matrix ⟨t.rotation.x, t.rotation.y, t.rotation.z, t.rotation.w⟩).mulVec
        ![0, -offset, 0, 1] + ![t.translation.x, t.translation.y, 0, 1]) 3 1 1)
      (Function.update ((quaternion_matrix ⟨t.rotation.x, t.rotation.y, t.rotation.z, t.rotation.w⟩).mulVec
        ![0, -offset, 0, 1] + ![t.translation.x, t.translation.y, 0, 1]) 3 1 0) = _
    rw [hq]
    rfl
  · show Real.sqrt
      ((Function.update ((quaternion_matrix ⟨t.rotation.x, t.rotation.y, t.rotation.z, t.rotation.w⟩).mulVec
        ![0, -offset, 0, 1] + ![t.translation.x, t.translation.y, 0, 1]) 3 1 0) ^ 2 +
       (Function.update ((quaternion_matrix ⟨t.rotation.x, t.rotation.y, t.rotation.z, t.rotation.w⟩).mulVec
        ![0, -offset, 0, 1] + ![t.translation.x, t.translation.y, 0, 1]) 3 1 1) ^ 2) = _
    rw [hq]
    rfl

/-- C1 witness: the theorem applied to the marker at translation `(1, 2, 3)`
with the identity (unit) quaternion and offset `3/4`. -/
theorem compute_difference_phi_dist_spec_witness :
    ((0 : ℝ) ^ 2 + 0 ^ 2 + 0 ^ 2 + 1 ^ 2 = 1) ∧
    ((compute_difference ⟨⟨1, 2, 3⟩, ⟨0, 0, 0, 1⟩⟩ (3 / 4)).1 =
        atan2 (P_base_spec ⟨⟨1, 2, 3⟩, ⟨0, 0, 0, 1⟩⟩ (3 / 4) 1)
          (P_base_spec ⟨⟨1, 2, 3⟩, ⟨0, 0, 0, 1⟩⟩ (3 / 4) 0) ∧
      (compute_difference ⟨⟨1, 2, 3⟩, ⟨0, 0, 0, 1⟩⟩ (3 / 4)).2.1 =
        Real.sqrt (P_base_spec ⟨⟨1, 2, 3⟩, ⟨0, 0, 0, 1⟩⟩ (3 / 4) 0 ^ 2 +
          P_base_spec ⟨⟨1, 2, 3⟩, ⟨0, 0, 0, 1⟩⟩ (3 / 4) 1 ^ 2) ∧
      ∀ tz : ℝ,
        compute_difference ⟨⟨1, 2, tz⟩, ⟨0, 0, 0, 1⟩⟩ (3 / 4) =
          compute_difference ⟨⟨1, 2, 3⟩, ⟨0, 0, 0, 1⟩⟩ (3 / 4)) :=
  ⟨by norm_num, compute_difference_phi_dist_spec ⟨⟨1, 2, 3⟩, ⟨0, 0, 0, 1⟩⟩ (3 / 4) (by norm_num)⟩

/-- C2: for every transform and offset, the returned `theta` equals
`-phi + yaw + pi` where `yaw` is the yaw of the quaternion under the
roll-pitch-yaw decomposition, and equivalently `phi + theta = yaw + pi`. -/
theorem compute_difference_theta_relation (t : Transform) (offset : ℝ) :
    (compute_difference t offset).2.2 =
      -(compute_difference t offset).1 + (euler_from_quaternion t.rotation).2.2 + Real.pi ∧
    (compute_difference t offset).1 + (compute_difference t offset).2.2 =
      (euler_from_quaternion t.rotation).2.2 + Real.pi := by
  refine ⟨rfl, ?_⟩
  show (compute_difference t offset).1 +
      (-(compute_difference t offset).1 + (euler_from_quaternion t.rotation).2.2 + Real.pi) = _
  ring

/-- C8: for every transform with a unit rotation quaternion and every
offset ≥ 0, the returned `phi` lies in `(-pi, pi]` and `dist` is
nonnegative (finiteness is inherent to the real-valued model). -/
theorem compute_difference_phi_range_dist_nonneg (t : Transform) (offset : ℝ)
    (hq : t.rotation.x ^ 2 + t.rotation.y ^ 2 + t.rotation.z ^ 2 + t.rotation.w ^ 2 = 1)
    (hoff : 0 ≤ offset) :
    (compute_difference t offset).1 ∈ Set.Ioc (-Real.pi) Real.pi ∧
    0 ≤ (compute_difference t offset).2.1 :=
  ⟨atan2_mem_Ioc _ _, Real.sqrt_nonneg _⟩

/-- C8 witness: the theorem applied to the identity unit quaternion with
translation `(1, 0, 0)` and offset `3/4`. -/
theorem compute_difference_phi_range_dist_nonneg_witness :
    ((0 : ℝ) ^ 2 + 0 ^ 2 + 0 ^ 2 + 1 ^ 2 = 1) ∧ ((0 : ℝ) ≤ 3 / 4) ∧
    ((compute_difference ⟨⟨1, 0, 0⟩, ⟨0, 0, 0, 1⟩⟩ (3 / 4)).1 ∈
        Set.Ioc (-Real.pi) Real.pi ∧
      0 ≤ (compute_difference ⟨⟨1, 0, 0⟩, ⟨0, 0, 0, 1⟩⟩ (3 / 4)).2.1) :=
  ⟨by norm_num, by norm_num,
    compute_difference_phi_range_dist_nonneg ⟨⟨1, 0, 0⟩, ⟨0, 0, 0, 1⟩⟩ (3 / 4)
      (by norm_num) (by norm_num)⟩

/-- C9: a marker at translation exactly `(0, offset, 0)` with identity
rotation yields `dist = 0` and a well-defined `phi = 0` via the
`atan2 0 0 = 0` convention. -/
theorem compute_difference_degenerate_standoff (offset : ℝ) :
    (compute_difference ⟨⟨0, offset, 0⟩, ⟨0, 0, 0, 1⟩⟩ offset).2.1 = 0 ∧
    (compute_difference ⟨⟨0, offset, 0⟩, ⟨0, 0, 0, 1⟩⟩ offset).1 = 0 := by
  obtain ⟨h0, h1⟩ := P_base_id_entries offset 0 offset
  have e1 : (compute_difference ⟨⟨0, offset, 0⟩, ⟨0, 0, 0, 1⟩⟩ offset).1 =
      atan2
        ((Function.update ((quaternion_matrix ⟨0, 0, 0, 1⟩).mulVec ![0, -offset, 0, 1] +
          ![0, offset, 0, 1]) 3 1) 1)
        ((Function.update ((quaternion_matrix ⟨0, 0, 0, 1⟩).mulVec ![0, -offset, 0, 1] +
          ![0, offset, 0, 1]) 3 1) 0) := rfl
  have e2 : (compute_difference ⟨⟨0, offset, 0⟩, ⟨0, 0, 0, 1⟩⟩ offset).2.1 =
      Real.sqrt
        (((Function.update ((quaternion_matrix ⟨0, 0, 0, 1⟩).mulVec ![0, -offset, 0, 1] +
          ![0, offset, 0, 1]) 3 1) 0) ^ 2 +
         ((Function.update ((quaternion_matrix ⟨0, 0, 0, 1⟩).mulVec ![0, -offset, 0, 1] +
          ![0, offset, 0, 1]) 3 1) 1) ^ 2) := rfl
  have hzero : -offset + offset = 0 := by ring
  rw [e1, e2, h0, h1, hzero]
  refine ⟨by norm_num, atan2_zero_zero⟩

/-- C10: the final rotation `theta` is not normalised into `(-pi, pi]`: for
the unit quaternion `(0, 0, 0, 1)`, translation `(0, -1, 0)` and offset `0`,
the returned `theta = pi/2 + 0 + pi` exceeds `pi`. -/
theorem compute_difference_theta_unnormalized :
    Real.pi < (compute_difference ⟨⟨0, -1, 0⟩, ⟨0, 0, 0, 1⟩⟩ 0).2.2 := by
  obtain ⟨h0, h1⟩ := P_base_id_entries 0 0 (-1)
  have e3 : (compute_difference ⟨⟨0, -1, 0⟩, ⟨0, 0, 0, 1⟩⟩ 0).2.2 =
      -atan2
        ((Function.update ((quaternion_matrix ⟨0, 0, 0, 1⟩).mulVec ![0, -0, 0, 1] +
          ![0, -1, 0, 1]) 3 1) 1)
        ((Function.update ((quaternion_matrix ⟨0, 0, 0, 1⟩).mulVec ![0, -0, 0, 1] +
          ![0, -1, 0, 1]) 3 1) 0) +
      (euler_from_quaternion ⟨0, 0, 0, 1⟩).2.2 + Real.pi := rfl
  rw [e3, h0, h1, euler_from_quaternion_id]
  have ha : atan2 (-0 + -1 : ℝ) 0 = -(Real.pi / 2) := by norm_num [atan2]
  rw [ha]
  have := Real.pi_pos
  norm_num
  linarith

/-- C3 counterexample: with an actuator that rejects exactly the second
(translate) command, `align_to_marker` nevertheless submits all three
commands — the third command IS submitted, refuting the claim that the
remaining sequence is aborted on rejection.  The nested helper's `return`
only skips awaiting the rejected goal's result. -/
theorem align_to_marker_third_submitted_after_second_rejected :
    (fun i => if i = 1 then GoalResponse.rejected else GoalResponse.accepted 4) 1 =
      GoalResponse.rejected ∧
    ((align_to_marker (fun i => if i = 1 then GoalResponse.rejected else GoalResponse.accepted 4)
        ⟨⟨1, 0, 0⟩, ⟨0, 0, 0, 1⟩⟩ (3 / 4)).submitted).map Prod.fst =
      ["rotate_mobile_base", "translate_mobile_base", "rotate_mobile_base"] := by
  refine ⟨rfl, ?_⟩
  rw [align_submitted]
  rfl

/-- C3 amended: if the actuator rejects the second (translate) command, an
error is logged for that step and its result is not awaited, but the
remaining sequence is NOT aborted — all three commands, the third included,
are still submitted in order. -/
theorem align_to_marker_rejection_does_not_abort (act : ℕ → GoalResponse)
    (t : Transform) (offset : ℝ) (h : act 1 = .rejected) :
    ((align_to_marker act t offset).submitted).map Prod.fst =
      ["rotate_mobile_base", "translate_mobile_base", "rotate_mobile_base"] ∧
    "Goal for translate_mobile_base was rejected!" ∈ (align_to_marker act t offset).errorLog := by
  constructor
  · rw [align_submitted]
    rfl
  · rw [align_to_marker]
    set c := compute_difference t offset
    set s1 := send_base_goal_blocking act ⟨[], [], [], []⟩ "rotate_mobile_base" c.1 with hs1
    set s2 := send_base_goal_blocking act s1 "translate_mobile_base" c.2.1 with hs2
    have hlen : s1.submitted.length = 1 := by
      rw [hs1, sbg_submitted]
      rfl
    have he2 : s2.errorLog = s1.errorLog ++ ["Goal for translate_mobile_base was rejected!"] := by
      rw [hs2, sbg_errorLog_rejected act s1 _ _ (by rw [hlen, h])]
      rfl
    obtain ⟨l, hl⟩ := sbg_errorLog_extend act s2 "rotate_mobile_base" c.2.2
    rw [hl, he2]
    simp

/-- C3 amended witness: the amended theorem applied to a concrete actuator
that rejects the second command. -/
theorem align_to_marker_rejection_does_not_abort_witness :
    ((fun i => if i = 1 then GoalResponse.rejected else GoalResponse.accepted 4) 1 =
        GoalResponse.rejected) ∧
    (((align_to_marker (fun i => if i = 1 then GoalResponse.rejected else GoalResponse.accepted 4)
        ⟨⟨0, 2, 0⟩, ⟨0, 0, 0, 1⟩⟩ (3 / 4)).submitted).map Prod.fst =
      ["rotate_mobile_base", "translate_mobile_base", "rotate_mobile_base"] ∧
    "Goal for translate_mobile_base was rejected!" ∈
      (align_to_marker (fun i => if i = 1 then GoalResponse.rejected else GoalResponse.accepted 4)
        ⟨⟨0, 2, 0⟩, ⟨0, 0, 0, 1⟩⟩ (3 / 4)).errorLog) :=
  ⟨rfl, align_to_marker_rejection_does_not_abort _ ⟨⟨0, 2, 0⟩, ⟨0, 0, 0, 1⟩⟩ (3 / 4) rfl⟩

/-- C4: if the first command is accepted but ends with a terminal status
other than `STATUS_SUCCEEDED` (e.g. aborted), a warning is logged for that
step and the sequence continues: all three commands are submitted, each
exactly once (no retry). -/
theorem align_to_marker_continues_after_non_success (act : ℕ → GoalResponse)
    (t : Transform) (offset : ℝ) (st : ℕ)
    (hacc : act 0 = .accepted st) (hst : st ≠ STATUS_SUCCEEDED) :
    ((align_to_marker act t offset).submitted).map Prod.fst =
      ["rotate_mobile_base", "translate_mobile_base", "rotate_mobile_base"] ∧
    "Goal for rotate_mobile_base did not succeed" ∈ (align_to_marker act t offset).warnLog := by
  constructor
  · rw [align_submitted]
    rfl
  · rw [align_to_marker]
    set c := compute_difference t offset
    set s1 := send_base_goal_blocking act ⟨[], [], [], []⟩ "rotate_mobile_base" c.1 with hs1
    have hw1 : s1.warnLog = [] ++ ["Goal for rotate_mobile_base did not succeed"] := by
      rw [hs1, sbg_warnLog_notSucceeded act _ _ _ st (by exact hacc) hst]
      rfl
    obtain ⟨l2, hl2⟩ := sbg_warnLog_extend act s1 "translate_mobile_base" c.2.1
    obtain ⟨l3, hl3⟩ := sbg_warnLog_extend act
      (send_base_goal_blocking act s1 "translate_mobile_base" c.2.1) "rotate_mobile_base" c.2.2
    rw [hl3, hl2, hw1]
    simp

/-- C4 witness: the theorem applied to an actuator that reports
`STATUS_ABORTED` for the first command and success for the rest. -/
theorem align_to_marker_continues_after_non_success_witness :
    ((fun i => if i = 0 then GoalResponse.accepted STATUS_ABORTED
        else GoalResponse.accepted STATUS_SUCCEEDED) 0 =
      GoalResponse.accepted STATUS_ABORTED) ∧
    (STATUS_ABORTED ≠ STATUS_SUCCEEDED) ∧
    (((align_to_marker (fun i => if i = 0 then GoalResponse.accepted STATUS_ABORTED
          else GoalResponse.accepted STATUS_SUCCEEDED)
        ⟨⟨1, 1, 0⟩, ⟨0, 0, 0, 1⟩⟩ (3 / 4)).submitted).map Prod.fst =
      ["rotate_mobile_base", "translate_mobile_base", "rotate_mobile_base"] ∧
    "Goal for rotate_mobile_base did not succeed" ∈
      (align_to_marker (fun i => if i = 0 then GoalResponse.accepted STATUS_ABORTED
          else GoalResponse.accepted STATUS_SUCCEEDED)
        ⟨⟨1, 1, 0⟩, ⟨0, 0, 0, 1⟩⟩ (3 / 4)).warnLog) :=
  by
  refine ⟨rfl, by decide, ?_⟩
  exact align_to_marker_continues_after_non_success _ ⟨⟨1, 1, 0⟩, ⟨0, 0, 0, 1⟩⟩ (3 / 4)
    STATUS_ABORTED rfl (by decide)

/-- C5: if the acquisition loop times out without a resolvable transform,
`main` logs the accumulated attempt log in its error exit, submits no motion
command at all, and returns without constructing the alignment controller
(the `timeoutExit` outcome). -/
theorem main_timeout_no_motion (oracle : ℕ → LookupResult) (marker : String)
    (act : ℕ → GoalResponse) (offset : ℝ) (missing : List String) (k : ℕ)
    (h : main_acquire oracle marker = .timedOut missing k) :
    main_model oracle marker act offset = .timeoutExit missing ∧
    (main_model oracle marker act offset).motionSubmitted = [] := by
  have hm : main_model oracle marker act offset = .timeoutExit missing := by
    simp only [main_model, h]
  rw [hm]
  exact ⟨rfl, rfl⟩

/-- C5 witness: the theorem applied to an oracle for which the marker frame
never becomes available, so the loop times out at iteration 121 with 122
logged attempts. -/
theorem main_timeout_no_motion_witness :
    (main_acquire (fun _ => LookupResult.notAvail) "bowl" =
      AcqResult.timedOut (List.replicate 122 ("base_link → " ++ "bowl")) 121) ∧
    (main_model (fun _ => LookupResult.notAvail) "bowl" (fun _ => GoalResponse.accepted 4)
        (3 / 4) =
      MainOutcome.timeoutExit (List.replicate 122 ("base_link → " ++ "bowl")) ∧
    (main_model (fun _ => LookupResult.notAvail) "bowl" (fun _ => GoalResponse.accepted 4)
        (3 / 4)).motionSubmitted = []) := by
  have h : main_acquire (fun _ => LookupResult.notAvail) "bowl" =
      AcqResult.timedOut (List.replicate 122 ("base_link → " ++ "bowl")) 121 := by
    have := acquire_loop_const_notAvail "bowl" 120 121 0 [] (by norm_num)
    simpa [main_acquire] using this
  exact ⟨h, main_timeout_no_motion _ "bowl" _ (3 / 4) _ 121 h⟩

/-- C6: if the lookup fails `N` times (not-available or exception) and then
succeeds, with `N` poll intervals inside the timeout, the loop terminates on
that first success holding the successful transform, and the attempt log has
exactly `N` entries — a transient exception is recorded and retried, never
aborting the loop. -/
theorem acquisition_returns_first_success (oracle : ℕ → LookupResult) (marker : String)
    (N : ℕ) (t : Transform)
    (hfail : ∀ k, k < N → ∀ u, oracle k ≠ .found u)
    (hsucc : oracle N = .found t)
    (hN : N * 1 < 120) :
    ∃ log, main_acquire oracle marker = .success t log N ∧ log.length = N := by
  obtain ⟨log, hl, hlen⟩ := acquire_loop_success_after oracle marker 120 t N 0 []
    (fun j hj u => by simpa using hfail j hj u)
    (fun j hj => by omega)
    (by simpa using hsucc)
  exact ⟨log, by simpa [main_acquire] using hl, hlen⟩

/-- C6 witness: the theorem applied to an oracle that raises an exception on
iteration 0, reports the frame unavailable on iteration 1, and succeeds on
iteration 2, so `N = 2`. -/
theorem acquisition_returns_first_success_witness :
    (∀ k, k < 2 → ∀ u, (fun i => if i = 0 then LookupResult.exn
        else if i = 1 then LookupResult.notAvail
        else LookupResult.found ⟨⟨1, 0, 0⟩, ⟨0, 0, 0, 1⟩⟩) k ≠ LookupResult.found u) ∧
    ((fun i => if i = 0 then LookupResult.exn
        else if i = 1 then LookupResult.notAvail
        else LookupResult.found ⟨⟨1, 0, 0⟩, ⟨0, 0, 0, 1⟩⟩) 2 =
      LookupResult.found ⟨⟨1, 0, 0⟩, ⟨0, 0, 0, 1⟩⟩) ∧
    (∃ log, main_acquire (fun i => if i = 0 then LookupResult.exn
        else if i = 1 then LookupResult.notAvail
        else LookupResult.found ⟨⟨1, 0, 0⟩, ⟨0, 0, 0, 1⟩⟩) "bowl" =
        AcqResult.success ⟨⟨1, 0, 0⟩, ⟨0, 0, 0, 1⟩⟩ log 2 ∧ log.length = 2) := by
  refine ⟨?_, rfl, ?_⟩
  · intro k hk u
    interval_cases k <;> simp
  · refine acquisition_returns_first_success _ "bowl" 2 ⟨⟨1, 0, 0⟩, ⟨0, 0, 0, 1⟩⟩ ?_ rfl
      (by norm_num)
    intro k hk u
    interval_cases k <;> simp

/-- C7: the acquisition loop always terminates (it is a total function of the
model), and in both the success and the failure branch it exits by iteration
index `timeout + 1` — i.e. within `timeout + poll_interval` seconds of
wall-clock time, with each iteration advancing the clock by the one-second
sleep. -/
theorem acquisition_loop_iteration_bound (oracle : ℕ → LookupResult) (marker : String) :
    (main_acquire oracle marker).itersRun ≤ 120 + 1 :=
  acquire_loop_iters_le oracle marker 120 121 0 [] (by omega) (by omega)
